import Mathlib

/-!
Luna Breast: verification of the extraction/merge/schedule core

Shallow embedding of the core logic of `src/app.py` (a single-file
Streamlit app).  Text is modelled as `List Char`; Python `None` is
`Option.none`; Python dicts with a fixed key set are Lean structures.

The regexes in `app.py` are compiled with `re.IGNORECASE` over `str`.
We model `\s` as ASCII whitespace, `\d` as ASCII `0-9` and `\w` as ASCII
alphanumeric or underscore, which agrees with Python on all ASCII input.
Each regex below is simple enough that Python's leftmost, greedy,
backtracking search is equivalent to a deterministic greedy scan: every
optional/starred piece is followed by a piece that cannot match the
characters the optional piece consumes, so declining a greedy consumption
never enables a match that greedy consumption forbids.  The scan models
exactly that.
-/

namespace Luna

/-- ASCII whitespace, the characters matched by Python's `\s` on ASCII text. -/
def isWs (c : Char) : Bool :=
  c = ' ' || c = '\t' || c = '\n' || c = '\r' || c = '\x0b' || c = '\x0c'

/-- Python `\w` on ASCII text: alphanumeric or underscore. -/
def isWordChar (c : Char) : Bool :=
  c.isAlphanum || c = '_'

/-- Case-insensitive match of `pat` at the front of `s`; returns the rest on success.
`pat` is given lowercase. -/
def matchCI : List Char → List Char → Option (List Char)
  | [], s => some s
  | _ :: _, [] => none
  | p :: ps, c :: cs => if c.toLower = p then matchCI ps cs else none

/-- Case-insensitive substring test: some position of `s` starts with `pat`
(models `re.search` of a literal alternative under `re.IGNORECASE`). -/
def containsCI (pat : List Char) : List Char → Bool
  | [] => (matchCI pat []).isSome
  | c :: cs => (matchCI pat (c :: cs)).isSome || containsCI pat cs

/-- Word-boundary check for the position after a match: end of text or a
non-word character (Python `\b` with a word character on the left). -/
def boundaryAfter : List Char → Bool
  | [] => true
  | c :: _ => !isWordChar c

/-- Whole-word match of `pat` anchored at the current position: the previous
character (if any) is not a word character, `pat` matches case-insensitively,
and the position after the match is a word boundary. -/
def wordAt (pat : List Char) (prev : Option Char) (s : List Char) : Bool :=
  (match prev with | none => true | some p => !isWordChar p) &&
  (match matchCI pat s with
    | none => false
    | some rest => boundaryAfter rest)

/-- Case-insensitive whole-word substring test for a pattern that begins and
ends with word characters, models `\b pat \b` under `re.IGNORECASE`.
`prev` is the character before the current position (`none` at the start). -/
def containsWordCIAux (pat : List Char) : Option Char → List Char → Bool
  | prev, [] => wordAt pat prev []
  | prev, c :: cs => wordAt pat prev (c :: cs) || containsWordCIAux pat (some c) cs

/-- Whole-word case-insensitive containment starting from the beginning of the text. -/
def containsWordCI (pat : List Char) (s : List Char) : Bool :=
  containsWordCIAux pat none s

/-- Consume one character satisfying `p` if present (a greedy `X?` in the regex). -/
def optOne (p : Char → Bool) : List Char → List Char
  | [] => []
  | c :: cs => if p c then cs else c :: cs

/-- Consume a single case-insensitive character (`c` given lowercase). -/
def expectCI (c : Char) : List Char → Option (List Char)
  | [] => none
  | x :: xs => if x.toLower = c then some xs else none

/-- Match `BI[-\s]?RADS?\s*[:\-]?\s*(\d)` (IGNORECASE) anchored at the start of
`s`, returning the captured digit.  Each greedy choice here is forced: the
optional pieces consume characters the following piece can never match, so
this scan agrees with Python's backtracking search at this position. -/
def biradsAt (s : List Char) : Option Int :=
  (expectCI 'b' s).bind fun s1 =>
  (expectCI 'i' s1).bind fun s2 =>
  let s3 := optOne (fun c => c = '-' || isWs c) s2
  (expectCI 'r' s3).bind fun s4 =>
  (expectCI 'a' s4).bind fun s5 =>
  (expectCI 'd' s5).bind fun s6 =>
  let s7 := optOne (fun c => c.toLower = 's') s6
  let s8 := s7.dropWhile isWs
  let s9 := optOne (fun c => c = ':' || c = '-') s8
  let s10 := s9.dropWhile isWs
  match s10 with
  | [] => none
  | c :: _ => if c.isDigit then some ((c.toNat - 48 : Nat) : Int) else none

/-- `re.search(r"BI[-\s]?RADS?\s*[:\-]?\s*(\d)", text, re.IGNORECASE)`:
leftmost match wins; `int(m.group(1))` on success, `None` otherwise
(`app.py`, `extract_birads`). -/
def extract_birads : List Char → Option Int
  | [] => none
  | c :: cs =>
    match biradsAt (c :: cs) with
    | some d => some d
    | none => extract_birads cs

/-- Match `density\s*X\b` (IGNORECASE) anchored at the start of `s`, for a
letter `x` given lowercase.  `\s*` is greedy; since `x` is never whitespace,
greedy whitespace consumption is equivalent to any other. -/
def densityTagAt (x : Char) (s : List Char) : Bool :=
  match matchCI "density".data s with
  | none => false
  | some rest =>
    match rest.dropWhile isWs with
    | [] => false
    | c :: cs => c.toLower = x && boundaryAfter cs

/-- Match `density\s*X\b` (IGNORECASE) somewhere in `s`. -/
def densityTag (x : Char) : List Char → Bool
  | [] => densityTagAt x []
  | c :: cs => densityTagAt x (c :: cs) || densityTag x cs

/-- The regex of pattern group D: `extremely dense|density\s*D\b`. -/
def groupD (s : List Char) : Bool :=
  containsCI "extremely dense".data s || densityTag 'd' s

/-- The regex of pattern group C: `heterogeneously dense|density\s*C\b`. -/
def groupC (s : List Char) : Bool :=
  containsCI "heterogeneously dense".data s || densityTag 'c' s

/-- The regex of pattern group B: `scattered fibroglandular|density\s*B\b`. -/
def groupB (s : List Char) : Bool :=
  containsCI "scattered fibroglandular".data s || densityTag 'b' s

/-- The regex of pattern group A: `almost entirely fatty|density\s*A\b`. -/
def groupA (s : List Char) : Bool :=
  containsCI "almost entirely fatty".data s || densityTag 'a' s

/-- The ordered pattern list of `extract_density` in `app.py`. -/
def densityPatterns : List ((List Char → Bool) × String) :=
  [(groupD, "D"), (groupC, "C"), (groupB, "B"), (groupA, "A")]

/-- The `for pat, code in patterns` loop of `extract_density`. -/
def firstCode : List ((List Char → Bool) × String) → List Char → String
  | [], _ => "unknown"
  | (p, code) :: rest, s => if p s then code else firstCode rest s

/-- `extract_density` of `app.py`: first matching pattern group wins,
`"unknown"` when none matches. -/
def extract_density (s : List Char) : String :=
  firstCode densityPatterns s

/-- `extract_laterality` of `app.py`. -/
def extract_laterality (s : List Char) : String :=
  if containsCI "bilateral".data s || containsCI "both breasts".data s then "bilateral"
  else if containsWordCI "left breast".data s then "left"
  else if containsWordCI "right breast".data s then "right"
  else "unknown"

/-- `timeframe_from_birads` of `app.py`: `None` passes through, otherwise the
dict `{0:7, 1:365, 2:365, 3:180, 4:7, 5:7, 6:0}.get(b)` (absent key gives `None`). -/
def timeframe_from_birads : Option Int → Option Int
  | none => none
  | some b =>
    if b = 0 then some 7
    else if b = 1 then some 365
    else if b = 2 then some 365
    else if b = 3 then some 180
    else if b = 4 then some 7
    else if b = 5 then some 7
    else if b = 6 then some 0
    else none

/-- The extraction dict built by the pipeline (`app.py`, the `extraction = {...}`
literal): all six keys are always present; `birads` and
`recommended_timeframe_days` may hold `None`. -/
structure ExtractionRecord where
  birads : Option Int
  density : String
  laterality : String
  findings : String
  recommendation : String
  recommended_timeframe_days : Option Int
deriving DecidableEq, Repr

/-- A well-typed partial enrichment dict — the shape the enrichment prompt
asks the service for: every key optional (outer `Option`: is the key
present), and a present key may hold JSON `null` (inner `Option`).  The merge
claims quantify over these; the raw, unvalidated value `llm_extract` actually
returns is modelled separately by `Json` below. -/
structure LlmRecord where
  birads : Option (Option Int) := none
  density : Option (Option String) := none
  laterality : Option (Option String) := none
  findings : Option (Option String) := none
  recommendation : Option (Option String) := none
  recommended_timeframe_days : Option (Option Int) := none
deriving DecidableEq, Repr

/-- The all-absent dict `{}`. -/
def emptyLlm : LlmRecord := {}

/-- The loop body `if k in llm and llm[k] not in [None, ""]` for an integer
field: an integer is never `None` nor `""`, so a present non-null value
overrides. -/
def overrideInt (base : Option Int) : Option (Option Int) → Option Int
  | some (some v) => some v
  | _ => base

/-- The loop body `if k in llm and llm[k] not in [None, ""]` for a string
field: a present value overrides unless it is `None` or `""`. -/
def overrideStr (base : String) : Option (Option String) → String
  | some (some v) => if v = "" then base else v
  | _ => base

/-- The `use_llm` merge block of `app.py` (lines 177-181): per-key override of
the base extraction by the enrichment dict, then recompute the timeframe from
the merged `birads` when it ended up `None`. -/
def merge (base : ExtractionRecord) (llm : LlmRecord) : ExtractionRecord :=
  let r : ExtractionRecord :=
    { birads := overrideInt base.birads llm.birads
      density := overrideStr base.density llm.density
      laterality := overrideStr base.laterality llm.laterality
      findings := overrideStr base.findings llm.findings
      recommendation := overrideStr base.recommendation llm.recommendation
      recommended_timeframe_days :=
        overrideInt base.recommended_timeframe_days llm.recommended_timeframe_days }
  if r.recommended_timeframe_days = none then
    { r with recommended_timeframe_days := timeframe_from_birads r.birads }
  else r

/-- Exact (case-sensitive) match of `pat` at the front of `s`. -/
def matchExact : List Char → List Char → Bool
  | [], _ => true
  | _ :: _, [] => false
  | p :: ps, c :: cs => p = c && matchExact ps cs

/-- Exact substring test, Python's `k in s` for strings. -/
def containsExact (pat : List Char) : List Char → Bool
  | [] => matchExact pat []
  | c :: cs => matchExact pat (c :: cs) || containsExact pat cs

/-- A JSON value as `json.loads` returns it (numbers restricted to the
integers the schema uses; no float appears in any claim). -/
inductive Json where
  | jnull : Json
  | jbool : Bool → Json
  | jint : Int → Json
  | jstr : String → Json
  | jarr : List Json → Json
  | jobj : List (String × Json) → Json

/-- `llm_extract` of `app.py` (lines 44-82).  The body of the `try` block is
modelled by its outcome: `none` stands for any exception the bare `except`
swallows (network or service error, or `json.loads` raising on a non-JSON
body), `some v` for the JSON value `json.loads` produced.  With no API key
configured the function returns `{}` before any call; a value that parses is
returned as-is — the code performs no schema validation. -/
def llm_extract (apiKey : Option String) (tryOutcome : Option Json) : Json :=
  match apiKey with
  | none => Json.jobj []
  | some _ =>
    match tryOutcome with
    | none => Json.jobj []
    | some v => v

/-- Python `k in v` for a string `k` and an arbitrary value `v`: key
containment for a dict, elementwise `==` for a list (a string key can only
equal string elements), substring test for a string; `None`, booleans and
integers are not iterable — `TypeError`. -/
def pyIn (k : String) : Json → Except Unit Bool
  | Json.jobj fields => Except.ok (fields.any (fun p => p.1 == k))
  | Json.jarr xs =>
    Except.ok (xs.any (fun x => match x with | Json.jstr s => s == k | _ => false))
  | Json.jstr s => Except.ok (containsExact k.data s.data)
  | _ => Except.error ()

/-- Python `v[k]` for a string `k`: dict lookup (with the last duplicate key
winning, and `KeyError` when the key is absent); list and string indices must
be integers and every other value is not subscriptable — `TypeError`. -/
def pyIndex (k : String) : Json → Except Unit Json
  | Json.jobj fields =>
    match fields.reverse.find? (fun p => p.1 == k) with
    | some p => Except.ok p.2
    | none => Except.error ()
  | _ => Except.error ()

/-- Python `v in [None, ""]`: only `None` itself and the empty string compare
equal to a member of that list. -/
def eqNoneOrEmpty : Json → Bool
  | Json.jnull => true
  | Json.jstr s => s == ""
  | _ => false

/-- One iteration of the merge loop (`app.py` lines 177-179) at key `k`:
`if k in llm and llm[k] not in [None, ""]: extraction[k] = llm[k]`. -/
def mergeField (cur : Json) (llm : Json) (k : String) : Except Unit Json := do
  let present ← pyIn k llm
  if present then
    let v ← pyIndex k llm
    if eqNoneOrEmpty v then pure cur else pure v
  else
    pure cur

/-- The extraction dict as Python holds it once raw `json.loads` values may
have been merged in: each of the six keys holds an arbitrary value. -/
structure PyRecord where
  birads : Json
  density : Json
  laterality : Json
  findings : Json
  recommendation : Json
  recommended_timeframe_days : Json

/-- An `int | None` Python value as JSON. -/
def jsonOfOptInt : Option Int → Json
  | none => Json.jnull
  | some n => Json.jint n

/-- The pipeline's extraction dict, value by value, as Python values. -/
def toPyRecord (r : ExtractionRecord) : PyRecord :=
  { birads := jsonOfOptInt r.birads
    density := Json.jstr r.density
    laterality := Json.jstr r.laterality
    findings := Json.jstr r.findings
    recommendation := Json.jstr r.recommendation
    recommended_timeframe_days := jsonOfOptInt r.recommended_timeframe_days }

/-- `timeframe_from_birads` applied to a merged, possibly ill-typed `birads`
value: `None` passes through; the dict `.get` then hashes its key, so an
integer is looked up, a boolean is looked up as 0/1 (Python `False == 0`,
`True == 1`), any other hashable value (a string) is simply not in the table,
and an unhashable list or dict raises `TypeError`. -/
def timeframe_from_birads_py : Json → Except Unit Json
  | Json.jnull => Except.ok Json.jnull
  | Json.jint n => Except.ok (jsonOfOptInt (timeframe_from_birads (some n)))
  | Json.jbool b =>
    Except.ok (jsonOfOptInt (timeframe_from_birads (some (if b then 1 else 0))))
  | Json.jstr _ => Except.ok Json.jnull
  | Json.jarr _ => Except.error ()
  | Json.jobj _ => Except.error ()

/-- The `use_llm` merge block (`app.py` lines 175-181) applied to the raw
value `llm_extract` returned: the per-key loop in dict insertion order, then
the timeframe recomputation from the merged `birads` when the merged
timeframe `is None`; a raised `TypeError`/`KeyError` aborts the run. -/
def mergeJson (base : PyRecord) (llm : Json) : Except Unit PyRecord := do
  let b ← mergeField base.birads llm "birads"
  let d ← mergeField base.density llm "density"
  let l ← mergeField base.laterality llm "laterality"
  let f ← mergeField base.findings llm "findings"
  let rc ← mergeField base.recommendation llm "recommendation"
  let t ← mergeField base.recommended_timeframe_days llm "recommended_timeframe_days"
  let tFinal ←
    match t with
    | Json.jnull => timeframe_from_birads_py b
    | _ => pure t
  pure { birads := b, density := d, laterality := l, findings := f,
         recommendation := rc, recommended_timeframe_days := tFinal }

/-- The base extraction record the pipeline builds from the raw text
(`app.py` lines 161-172). -/
def buildBaseline (t : List Char) : ExtractionRecord :=
  { birads := extract_birads t
    density := extract_density t
    laterality := extract_laterality t
    findings := ""
    recommendation := ""
    recommended_timeframe_days := timeframe_from_birads (extract_birads t) }

/-- A proleptic-Gregorian calendar date, the model of Python `datetime.date`. -/
structure Date where
  year : Nat
  month : Nat
  day : Nat
deriving DecidableEq, Repr

/-- Gregorian leap-year rule. -/
def isLeap (y : Nat) : Bool :=
  (y % 4 = 0 && y % 100 ≠ 0) || y % 400 = 0

/-- Days in a month of a given year. -/
def daysInMonth (y m : Nat) : Nat :=
  if m = 2 then (if isLeap y then 29 else 28)
  else if m = 4 || m = 6 || m = 9 || m = 11 then 30
  else 31

/-- The next calendar day. -/
def nextDay (d : Date) : Date :=
  if d.day < daysInMonth d.year d.month then { d with day := d.day + 1 }
  else if d.month < 12 then { year := d.year, month := d.month + 1, day := 1 }
  else { year := d.year + 1, month := 1, day := 1 }

/-- `today + datetime.timedelta(days=n)`: calendar-day addition. -/
def addDays : Nat → Date → Date
  | 0, d => d
  | n + 1, d => addDays n (nextDay d)

/-- The follow-up planner block of `app.py` (lines 197-199):
`if tf is not None and tf >= 0: due = today + timedelta(days=int(tf))`,
no date otherwise. -/
def schedule (tf : Option Int) (today : Date) : Option Date :=
  match tf with
  | none => none
  | some t => if 0 ≤ t then some (addDays t.toNat today) else none

/-- An arbitrary dict argument of `patient_summary`: each key may be absent
(outer `Option`) and a present key may hold `None` (inner `Option`). -/
structure SummaryDict where
  birads : Option (Option Int) := none
  density : Option (Option String) := none
  laterality : Option (Option String) := none
  findings : Option (Option String) := none
  recommendation : Option (Option String) := none
  recommended_timeframe_days : Option (Option Int) := none
deriving DecidableEq, Repr

/-- Python `str(v)` for an int-or-`None` value. -/
def pyShowOptInt : Option Int → String
  | none => "None"
  | some n => toString n

/-- Python `str(v)` for a string-or-`None` value. -/
def pyShowOptStr : Option String → String
  | none => "None"
  | some s => s

/-- Python `v or fb` for a string-or-`None` value: `None` and `""` are falsy. -/
def pyOrStr (v : Option String) (fb : String) : String :=
  match v with
  | none => fb
  | some s => if s = "" then fb else s

/-- Python `.upper()` restricted to ASCII letters. -/
def asciiUpper (s : String) : String :=
  String.mk (s.data.map Char.toUpper)

/-- The supplemental-screening sentence `patient_summary` may append. -/
def denseSentence : String :=
  "\n• Because your breast tissue is dense, your clinician may discuss if any additional screening is right for you."

/-- `patient_summary` of `app.py` (lines 84-113), a direct transliteration:
`.get(k, default)` is a match on the outer `Option` and `str(...)` on the
inner one; f-string interpolation is string concatenation. -/
def patient_summary (extraction : SummaryDict) : String :=
  let b : String :=
    match extraction.birads with
    | none => "not specified"
    | some v => pyShowOptInt v
  let d : Option String :=
    match extraction.density with
    | none => some "unknown"
    | some v => v
  let lat : Option String :=
    match extraction.laterality with
    | none => some "unknown"
    | some v => v
  let findings : String :=
    pyOrStr (extraction.findings.join) "not specified in the report"
  let rec' : String :=
    pyOrStr (extraction.recommendation.join) "follow your care team\x27s advice"
  let tf : Option Int := (extraction.recommended_timeframe_days).join
  let when : String :=
    match tf with
    | none => "as recommended"
    | some n => "in about " ++ toString n ++ " days"
  let dense_line : String :=
    if asciiUpper (pyShowOptStr d) = "C" || asciiUpper (pyShowOptStr d) = "D" then
      denseSentence
    else ""
  "### What this means\n" ++
  "• BI-RADS: **" ++ b ++ "**\n" ++
  "• Breast density: **" ++ pyShowOptStr d ++ "**\n" ++
  "• Side: **" ++ pyShowOptStr lat ++ "**\n" ++
  "• Key findings: " ++ findings ++ "\n\n" ++
  "### Your next steps\n" ++
  "• Recommended action: " ++ rec' ++ " " ++ when ++ ".\n" ++
  dense_line ++ "\n" ++
  "### Questions to ask your clinician\n" ++
  "• Do I need any additional imaging?\n" ++
  "• When should I schedule it?\n" ++
  "• Is there anything else I should know?\n\n" ++
  "_This summary is educational and does not replace your clinician’s advice._"

/-- The dict the pipeline passes to `patient_summary`: every key present,
holding the record's values (ints and `None` as-is, strings as-is). -/
def toDict (r : ExtractionRecord) : SummaryDict :=
  { birads := some r.birads
    density := some (some r.density)
    laterality := some (some r.laterality)
    findings := some (some r.findings)
    recommendation := some (some r.recommendation)
    recommended_timeframe_days := some r.recommended_timeframe_days }

/-! Spec-side definitions.

The following definitions are written from the specification's wording, to be
compared with the source-derived definitions above. -/

/-- Spec wording, integer field: the enrichment value overrides the base value
when the field is provided with a non-null value (an integer is never the
empty string); otherwise the base value is kept. -/
def specOverrideInt (base : Option Int) (e : Option (Option Int)) : Option Int :=
  match e.join with
  | some v => some v
  | none => base

/-- Spec wording, string field: the enrichment value overrides the base value
when the field is provided with a non-null, non-empty-string value; otherwise
the base value is kept. -/
def specOverrideStr (base : String) (e : Option (Option String)) : String :=
  match e.join with
  | some v => if v = "" then base else v
  | none => base

/-- The merge as the spec words it: a per-field override pass, then, if
`recommended_timeframe_days` ended up absent, recompute it via
TimeframePolicy from the (possibly enrichment-overridden) `birads`. -/
def mergeSpec (base : ExtractionRecord) (llm : LlmRecord) : ExtractionRecord :=
  let m : ExtractionRecord :=
    { birads := specOverrideInt base.birads llm.birads
      density := specOverrideStr base.density llm.density
      laterality := specOverrideStr base.laterality llm.laterality
      findings := specOverrideStr base.findings llm.findings
      recommendation := specOverrideStr base.recommendation llm.recommendation
      recommended_timeframe_days :=
        specOverrideInt base.recommended_timeframe_days llm.recommended_timeframe_days }
  match m.recommended_timeframe_days with
  | some _ => m
  | none => { m with recommended_timeframe_days := timeframe_from_birads m.birads }

/-- The density value `patient_summary` displays: the dict's density value,
`"unknown"` when the key is absent, `"None"` when the key holds `None`. -/
def densityShown (e : SummaryDict) : String :=
  pyShowOptStr (match e.density with | none => some "unknown" | some v => v)

/-- The summary as the spec words it: the same template, the
supplemental-screening sentence appended exactly when the density is C or D,
and the fixed fallback phrases substituted exactly when `findings` or
`recommendation` is missing or empty. -/
def renderSpec (e : SummaryDict) : String :=
  let b : String :=
    match e.birads with
    | none => "not specified"
    | some v => pyShowOptInt v
  let d : String := densityShown e
  let lat : Option String :=
    match e.laterality with
    | none => some "unknown"
    | some v => v
  let findings : String :=
    match e.findings.join with
    | none => "not specified in the report"
    | some s => if s = "" then "not specified in the report" else s
  let rec' : String :=
    match e.recommendation.join with
    | none => "follow your care team\x27s advice"
    | some s => if s = "" then "follow your care team\x27s advice" else s
  let tf : Option Int := (e.recommended_timeframe_days).join
  let when : String :=
    match tf with
    | none => "as recommended"
    | some n => "in about " ++ toString n ++ " days"
  let dense_line : String :=
    if d = "C" || d = "D" then denseSentence else ""
  "### What this means\n" ++
  "• BI-RADS: **" ++ b ++ "**\n" ++
  "• Breast density: **" ++ d ++ "**\n" ++
  "• Side: **" ++ pyShowOptStr lat ++ "**\n" ++
  "• Key findings: " ++ findings ++ "\n\n" ++
  "### Your next steps\n" ++
  "• Recommended action: " ++ rec' ++ " " ++ when ++ ".\n" ++
  dense_line ++ "\n" ++
  "### Questions to ask your clinician\n" ++
  "• Do I need any additional imaging?\n" ++
  "• When should I schedule it?\n" ++
  "• Is there anything else I should know?\n\n" ++
  "_This summary is educational and does not replace your clinician’s advice._"

/-- The spec's range invariant for `birads`: a valid integer 0-6 or absent. -/
def biradsInRange (r : ExtractionRecord) : Prop :=
  ∀ b, r.birads = some b → 0 ≤ b ∧ b ≤ 6

/-- The part of the rendered summary after the BI-RADS line, for a record
whose `birads` is `None`. -/
def summaryTailNone (r : ExtractionRecord) : String :=
  "• Breast density: **" ++ r.density ++ "**\n" ++
  "• Side: **" ++ r.laterality ++ "**\n" ++
  "• Key findings: " ++ pyOrStr (some r.findings) "not specified in the report" ++ "\n\n" ++
  "### Your next steps\n" ++
  "• Recommended action: " ++ pyOrStr (some r.recommendation) "follow your care team\x27s advice" ++ " " ++
  (match r.recommended_timeframe_days with
    | none => "as recommended"
    | some n => "in about " ++ toString n ++ " days") ++ ".\n" ++
  (if asciiUpper r.density = "C" || asciiUpper r.density = "D" then denseSentence else "") ++ "\n" ++
  "### Questions to ask your clinician\n" ++
  "• Do I need any additional imaging?\n" ++
  "• When should I schedule it?\n" ++
  "• Is there anything else I should know?\n\n" ++
  "_This summary is educational and does not replace your clinician’s advice._"

/-! Theorems. -/

/-- Merging with the empty enrichment dict is the identity on any base record
whose absent timeframe cannot be recomputed from its `birads`. -/
theorem merge_emptyLlm_of_consistent (base : ExtractionRecord)
    (h : base.recommended_timeframe_days = none →
      timeframe_from_birads base.birads = none) :
    merge base emptyLlm = base := by
  cases base with
  | mk b d l f r t =>
    cases t with
    | none => simp [merge, emptyLlm, overrideInt, overrideStr, h rfl]
    | some v => simp [merge, emptyLlm, overrideInt, overrideStr]

/-- C1: `timeframe_from_birads` maps BI-RADS 0..6 to 7, 365, 365, 180, 7, 7, 0
days respectively, maps an absent input to absent, and maps every integer
outside 0..6 to absent (not zero, not an error). -/
theorem timeframe_lookup_correct :
    timeframe_from_birads (some 0) = some 7 ∧
    timeframe_from_birads (some 1) = some 365 ∧
    timeframe_from_birads (some 2) = some 365 ∧
    timeframe_from_birads (some 3) = some 180 ∧
    timeframe_from_birads (some 4) = some 7 ∧
    timeframe_from_birads (some 5) = some 7 ∧
    timeframe_from_birads (some 6) = some 0 ∧
    timeframe_from_birads none = none ∧
    ∀ b : Int, (b < 0 ∨ 6 < b) → timeframe_from_birads (some b) = none := by
  refine ⟨rfl, rfl, rfl, rfl, rfl, rfl, rfl, rfl, ?_⟩
  intro b hb
  have h0 : ¬ b = 0 := by omega
  have h1 : ¬ b = 1 := by omega
  have h2 : ¬ b = 2 := by omega
  have h3 : ¬ b = 3 := by omega
  have h4 : ¬ b = 4 := by omega
  have h5 : ¬ b = 5 := by omega
  have h6 : ¬ b = 6 := by omega
  simp [timeframe_from_birads, h0, h1, h2, h3, h4, h5, h6]

/-- Witness for C1 at the out-of-table input 42. -/
theorem timeframe_lookup_correct_witness :
    timeframe_from_birads (some 42) = none :=
  timeframe_lookup_correct.2.2.2.2.2.2.2.2 42 (by decide)

/-- C3 counterexample: a record with `birads = 3` but an absent timeframe is
changed by merging with the empty enrichment dict — the merge block recomputes
the timeframe to 180 days. -/
theorem merge_empty_changes_record :
    merge ⟨some 3, "unknown", "unknown", "", "", none⟩ emptyLlm ≠
      ⟨some 3, "unknown", "unknown", "", "", none⟩ := by decide

/-- C3 amended: merging with the empty enrichment dict leaves the base record
unchanged whenever its timeframe, when absent, is not recomputable from its
`birads` — in particular for every baseline record the pipeline builds, whose
timeframe already equals the lookup of its `birads`. -/
theorem merge_empty_id (base : ExtractionRecord)
    (h : base.recommended_timeframe_days = none →
      timeframe_from_birads base.birads = none) :
    merge base emptyLlm = base :=
  merge_emptyLlm_of_consistent base h

/-- Witness for C3 at a concrete consistent record. -/
theorem merge_empty_id_witness :
    merge ⟨some 2, "B", "bilateral", "", "", some 365⟩ emptyLlm =
      ⟨some 2, "B", "bilateral", "", "", some 365⟩ :=
  merge_empty_id ⟨some 2, "B", "bilateral", "", "", some 365⟩ (by decide)

set_option maxRecDepth 4000 in
/-- C6: the follow-up planner produces no date for an absent timeframe,
no date for a negative timeframe, and `today + timeframe` calendar days for a
timeframe ≥ 0; in particular 2024-01-01 plus 180 days is 2024-06-29. -/
theorem schedule_correct :
    (∀ d, schedule none d = none) ∧
    (∀ d (t : Int), t < 0 → schedule (some t) d = none) ∧
    (∀ d (t : Int), 0 ≤ t → schedule (some t) d = some (addDays t.toNat d)) ∧
    schedule (some 180) ⟨2024, 1, 1⟩ = some ⟨2024, 6, 29⟩ := by
  refine ⟨fun d => rfl, ?_, ?_, by decide⟩
  · intro d t ht
    simp [schedule, not_le.mpr ht]
  · intro d t ht
    simp [schedule, ht]

/-- Witness for C6 at concrete inputs: a negative timeframe yields no date and
a two-day timeframe lands two calendar days later (across a leap day). -/
theorem schedule_correct_witness :
    schedule (some (-1)) ⟨2024, 1, 1⟩ = none ∧
    schedule (some 2) ⟨2024, 2, 28⟩ = some (addDays (Int.toNat 2) ⟨2024, 2, 28⟩) :=
  ⟨schedule_correct.2.1 ⟨2024, 1, 1⟩ (-1) (by decide),
   schedule_correct.2.2.1 ⟨2024, 2, 28⟩ 2 (by decide)⟩

/-- Merging the empty dict `{}` is the identity on any extraction dict whose
timeframe value, when `None`, is recomputed back to `None` from its `birads`
value. -/
theorem mergeJson_emptyObj_of (base : PyRecord)
    (h : base.recommended_timeframe_days = Json.jnull →
      timeframe_from_birads_py base.birads = Except.ok Json.jnull) :
    mergeJson base (Json.jobj []) = Except.ok base := by
  rcases base with ⟨b, d, l, f, rc, tf⟩
  cases tf with
  | jnull =>
    have h2 := h rfl
    rw [show mergeJson ⟨b, d, l, f, rc, Json.jnull⟩ (Json.jobj []) =
        Except.bind (timeframe_from_birads_py b)
          (fun tFinal => Except.ok ⟨b, d, l, f, rc, tFinal⟩) from rfl, h2]
    rfl
  | jbool v => rfl
  | jint v => rfl
  | jstr v => rfl
  | jarr v => rfl
  | jobj v => rfl

/-- C8 counterexample: with a credential configured and the service returning
the valid-JSON but schema-mismatching body `{"birads": "three"}`,
`llm_extract` returns that dict as-is (not `{}`), and merging it into the
baseline of the empty report changes the record; the valid-JSON non-dict
response `5` makes the merge loop raise `TypeError` (`"birads" in 5`). -/
theorem enrichment_schema_mismatch :
    llm_extract (some "key") (some (Json.jobj [("birads", Json.jstr "three")])) =
      Json.jobj [("birads", Json.jstr "three")] ∧
    Json.jobj [("birads", Json.jstr "three")] ≠ Json.jobj [] ∧
    mergeJson (toPyRecord (buildBaseline []))
        (Json.jobj [("birads", Json.jstr "three")]) =
      Except.ok
        { birads := Json.jstr "three", density := Json.jstr "unknown",
          laterality := Json.jstr "unknown", findings := Json.jstr "",
          recommendation := Json.jstr "",
          recommended_timeframe_days := Json.jnull } ∧
    ({ birads := Json.jstr "three", density := Json.jstr "unknown",
       laterality := Json.jstr "unknown", findings := Json.jstr "",
       recommendation := Json.jstr "",
       recommended_timeframe_days := Json.jnull } : PyRecord) ≠
      toPyRecord (buildBaseline []) ∧
    mergeJson (toPyRecord (buildBaseline [])) (Json.jint 5) =
      Except.error () := by
  refine ⟨rfl, by simp, rfl, ?_, rfl⟩
  have hbase : toPyRecord (buildBaseline []) =
      { birads := Json.jnull, density := Json.jstr "unknown",
        laterality := Json.jstr "unknown", findings := Json.jstr "",
        recommendation := Json.jstr "",
        recommended_timeframe_days := Json.jnull } := rfl
  rw [hbase]
  simp [PyRecord.mk.injEq]

/-- C8 amended: enrichment is fail-open for a missing credential and for any
exception inside the `try` block (network/service error, non-JSON body) —
`{}` is returned without raising, and merging `{}` reproduces the rule-based
baseline exactly — but a syntactically valid JSON response is returned
without schema validation: a mismatching object's values override record
fields as-is, and a non-dict value such as an integer makes the merge loop
raise an uncaught `TypeError`. -/
theorem enrichment_fail_open_amended :
    (∀ outcome, llm_extract none outcome = Json.jobj []) ∧
    (∀ key, llm_extract (some key) none = Json.jobj []) ∧
    (∀ t, mergeJson (toPyRecord (buildBaseline t)) (Json.jobj []) =
      Except.ok (toPyRecord (buildBaseline t))) ∧
    (∀ key v, llm_extract (some key) (some v) = v) ∧
    (∀ t n, mergeJson (toPyRecord (buildBaseline t)) (Json.jint n) =
      Except.error ()) := by
  refine ⟨fun _ => rfl, fun _ => rfl, fun t => ?_, fun _ _ => rfl, fun _ _ => rfl⟩
  apply mergeJson_emptyObj_of
  intro htf0
  cases hb : extract_birads t with
  | none =>
    simp only [toPyRecord, buildBaseline, hb]
    rfl
  | some n =>
    simp only [toPyRecord, buildBaseline, hb] at htf0 ⊢
    cases htf : timeframe_from_birads (some n) with
    | none => simp [timeframe_from_birads_py, jsonOfOptInt, htf]
    | some v =>
      rw [htf] at htf0
      simp [jsonOfOptInt] at htf0

/-- C2: the merge block implements the spec's per-field override rule — each
field keeps its base value unless the enrichment dict provides it with a
non-null, non-empty-string value — followed by the timeframe recomputation
from the merged `birads`; in particular merging a `birads = 3` record having
an absent timeframe with an enrichment giving `birads = 5` yields `birads = 5`
and timeframe 7. -/
theorem merge_matches_spec :
    (∀ base llm, merge base llm = mergeSpec base llm) ∧
    (merge ⟨some 3, "unknown", "unknown", "", "", none⟩
        { birads := some (some 5) }).birads = some 5 ∧
    (merge ⟨some 3, "unknown", "unknown", "", "", none⟩
        { birads := some (some 5) }).recommended_timeframe_days = some 7 := by
  refine ⟨?_, by decide, by decide⟩
  intro base llm
  have hI : ∀ (b : Option Int) (e : Option (Option Int)),
      overrideInt b e = specOverrideInt b e := by
    intro b e
    rcases e with _ | e
    · rfl
    · rcases e with _ | v <;> rfl
  have hS : ∀ (b : String) (e : Option (Option String)),
      overrideStr b e = specOverrideStr b e := by
    intro b e
    rcases e with _ | e
    · rfl
    · rcases e with _ | v <;> rfl
  simp only [merge, mergeSpec, hI, hS]
  cases h : specOverrideInt base.recommended_timeframe_days
      llm.recommended_timeframe_days with
  | none => simp [h]
  | some v => simp [h]

/-- C4: density extraction tests its pattern groups in the fixed order
D, C, B, A with the first match winning and `"unknown"` when none matches;
in particular any text containing both "extremely dense" and "density B"
yields "D". -/
theorem extract_density_priority :
    (∀ s, extract_density s =
      if groupD s then "D"
      else if groupC s then "C"
      else if groupB s then "B"
      else if groupA s then "A"
      else "unknown") ∧
    (∀ s, containsCI "extremely dense".data s = true →
      containsCI "density b".data s = true → extract_density s = "D") := by
  constructor
  · intro s
    rfl
  · intro s h1 _
    have hD : groupD s = true := by simp [groupD, h1]
    simp [extract_density, densityPatterns, firstCode, hD]

/-- Witness for C4 at a text containing both phrases. -/
theorem extract_density_priority_witness :
    extract_density "extremely dense tissue; density B".data = "D" :=
  extract_density_priority.2 "extremely dense tissue; density B".data
    (by decide) (by decide)

/-- C5 counterexample: a text that contains "BI-RADS 3" but whose first match
carries the digit 5 — `extract_birads` returns 5, not 3, so containing
"BI-RADS 3" does not guarantee a result of 3. -/
theorem birads_contained_not_returned :
    containsCI "bi-rads 3".data "BI-RADS 5 BI-RADS 3".data = true ∧
    extract_birads "BI-RADS 5 BI-RADS 3".data = some 5 ∧
    extract_birads "BI-RADS 5 BI-RADS 3".data ≠ some 3 :=
  ⟨by decide, by decide, by decide⟩

/-- C5 amended: BI-RADS extraction returns the digit of the first
(leftmost) match of the pattern, and absent when no position matches; a text
containing "BI-RADS 3" yields 3 only when that occurrence is the first match —
in particular whenever it sits at the start of the text, in any case, hyphen,
spacing or punctuation variant the regex admits. -/
theorem extract_birads_first_occurrence :
    (∀ c cs, extract_birads (c :: cs) =
      match biradsAt (c :: cs) with
      | some d => some d
      | none => extract_birads cs) ∧
    (∀ t, extract_birads ("BI-RADS 3".data ++ t) = some 3) ∧
    (∀ t, extract_birads ("bi rads:3".data ++ t) = some 3) ∧
    (∀ t, extract_birads ("BIRADS - 3".data ++ t) = some 3) :=
  ⟨fun _ _ => rfl, fun _ => rfl, fun _ => rfl, fun _ => rfl⟩

/-- The digit captured by an anchored BI-RADS match is between 0 and 9. -/
theorem biradsAt_le_nine (s : List Char) (b : Int) (h : biradsAt s = some b) :
    0 ≤ b ∧ b ≤ 9 := by
  simp only [biradsAt, Option.bind_eq_some] at h
  obtain ⟨s1, -, s2, -, s3, -, s4, -, s5, -, h⟩ := h
  rcases hX : (optOne (fun c => (c = ':' || c = '-' : Bool))
      ((optOne (fun c => (c.toLower = 's' : Bool)) s5).dropWhile isWs)).dropWhile isWs
    with _ | ⟨c, rest⟩
  · rw [hX] at h
    simp at h
  · rw [hX] at h
    by_cases hd : c.isDigit = true
    · simp only [hd, if_true] at h
      simp at h
      simp [Char.isDigit, Char.le_def] at hd
      obtain ⟨h1, h2⟩ := hd
      have h3 : c.toNat ≤ 57 := h2
      have h4 : 48 ≤ c.toNat := h1
      omega
    · simp [hd] at h

/-- `extract_birads` only ever returns a single decimal digit. -/
theorem extract_birads_le_nine (t : List Char) (b : Int)
    (h : extract_birads t = some b) : 0 ≤ b ∧ b ≤ 9 := by
  induction t with
  | nil => simp [extract_birads] at h
  | cons c cs ih =>
    rw [show extract_birads (c :: cs) =
        (match biradsAt (c :: cs) with
          | some d => some d
          | none => extract_birads cs) from rfl] at h
    rcases hA : biradsAt (c :: cs) with _ | d
    · rw [hA] at h
      exact ih h
    · rw [hA] at h
      obtain rfl : d = b := by simpa using h
      exact biradsAt_le_nine (c :: cs) _ hA

/-- C7 counterexample: on a report reading "BI-RADS 7" the pipeline's record
carries `birads = 7`, outside the valid 0-6 range — the regex performs no
range validation. -/
theorem pipeline_birads_out_of_range :
    ¬ biradsInRange (buildBaseline "Assessment: BI-RADS 7.".data) := by
  intro h
  have h7 := h 7 (by decide)
  omega

/-- C7 amended: in every record built by the rule-based pipeline, `birads` is
either absent or a single decimal digit 0-9 (the regex captures any digit
without validating the 0-6 range; enrichment may further override it with an
arbitrary integer). -/
theorem baseline_birads_digit (t : List Char) (b : Int)
    (h : (buildBaseline t).birads = some b) : 0 ≤ b ∧ b ≤ 9 :=
  extract_birads_le_nine t b h

/-- Witness for C7 at the digit-9 report. -/
theorem baseline_birads_digit_witness :
    (buildBaseline "BI-RADS 9".data).birads = some 9 ∧
      (0 ≤ (9 : Int) ∧ (9 : Int) ≤ 9) :=
  ⟨by decide, baseline_birads_digit "BI-RADS 9".data 9 (by decide)⟩

/-- C9: for every dict whose displayed density lies in the record domain
A/B/C/D/unknown, `patient_summary` renders exactly what the spec describes:
the template with the supplemental-screening sentence appended exactly when
the density is C or D, and the fixed fallback phrases substituted exactly
when `findings` or `recommendation` is missing or empty. -/
theorem patient_summary_spec (e : SummaryDict)
    (h : densityShown e ∈ (["A", "B", "C", "D", "unknown"] : List String)) :
    patient_summary e = renderSpec e := by
  simp only [List.mem_cons, List.not_mem_nil, or_false] at h
  rcases h with h | h | h | h | h <;>
  · simp only [densityShown] at h
    simp only [patient_summary, renderSpec, densityShown]
    simp only [h]
    rfl

/-- Witness for C9 at a dense-tissue record. -/
theorem patient_summary_spec_witness :
    patient_summary (toDict ⟨none, "C", "unknown", "", "", none⟩) =
      renderSpec (toDict ⟨none, "C", "unknown", "", "", none⟩) :=
  patient_summary_spec (toDict ⟨none, "C", "unknown", "", "", none⟩) (by decide)

/-- C10: the pipeline's dict always carries the `birads` key (holding `None`
when nothing was extracted), so `patient_summary`'s dictionary-lookup default
"not specified" is never used for a pipeline record; with `birads`
unextracted the summary shows the line "BI-RADS: **None**". -/
theorem pipeline_summary_birads_key :
    (∀ r : ExtractionRecord, (toDict r).birads = some r.birads) ∧
    (∀ r : ExtractionRecord, r.birads = none →
      patient_summary (toDict r) =
        "### What this means\n• BI-RADS: **None**\n" ++ summaryTailNone r) := by
  refine ⟨fun r => rfl, fun r hb => ?_⟩
  conv_rhs => rw [show ("### What this means\n• BI-RADS: **None**\n" : String) =
    "### What this means\n" ++ ("• BI-RADS: **" ++ ("None" ++ "**\n")) from rfl]
  simp [patient_summary, toDict, summaryTailNone, hb, pyShowOptInt, pyShowOptStr,
    Option.join, String.append_assoc]
  conv_rhs => rw [← String.append_assoc]
  rfl

/-- Witness for C10 at a record with no extracted BI-RADS. -/
theorem pipeline_summary_birads_key_witness :
    patient_summary (toDict (buildBaseline [])) =
      "### What this means\n• BI-RADS: **None**\n" ++
        summaryTailNone (buildBaseline []) :=
  pipeline_summary_birads_key.2 (buildBaseline []) (by decide)

end Luna
